import Mathlib

/-!
Verification of the `aibro` agent-tool modules against their specification.

The Python source under `src/agents/code_agent/tools/` (`file_tools.py`,
`bash_tools.py`) and `src/agents/paper_agent/tools/` (`paper_tools.py`) is
shallowly embedded below.  Pure string/list manipulation is translated
directly; the OS interface (filesystem, environment, subprocesses) is made
explicit as a state/parameter, and Python exceptions are modelled with
`Except` / explicit fault parameters.  Strings are treated at the level of
their character lists; Python `str.lower` is modelled by the ASCII
`Char.toLower` (the inputs appearing in all concrete theorems are ASCII).
-/

/-! ## Python string and list primitives -/

/-- The whitespace characters matched by Python's `\s` (ASCII range),
used by `str.strip` and the header regular expression. -/
def isPySpace (c : Char) : Bool :=
  c == ' ' || c == '\t' || c == '\n' || c == '\r' || c == '\x0b' || c == '\x0c'

/-- `str.strip()` on a character list: drop whitespace from both ends. -/
def pyStripL (l : List Char) : List Char :=
  ((l.dropWhile isPySpace).reverse.dropWhile isPySpace).reverse

/-- Python `str.strip()` (ASCII whitespace). -/
def pyStrip (s : String) : String := String.mk (pyStripL s.data)

/-- Python `str.lower()` (ASCII case folding). -/
def pyLower (s : String) : String := String.mk (s.data.map Char.toLower)

/-- Helper for the Python `in` substring test: does `needle` occur as a
contiguous run in the second list?  (`[] ∈ l` is true, as in Python.) -/
def pyInAux (needle : List Char) : List Char → Bool
  | [] => needle.isEmpty
  | hay@(_ :: t) => needle.isPrefixOf hay || pyInAux needle t

/-- Python's `needle in hay` substring test. -/
def pyInB (needle hay : String) : Bool := pyInAux needle.data hay.data

/-- Python's `str.startswith` (used only in theorem statements). -/
def pyStartsWithB (s p : String) : Bool := p.data.isPrefixOf s.data

/-- Normalise one Python slice endpoint for a list of length `len`:
negative indices count from the end, and endpoints are clamped into
`[0, len]`. -/
def pySliceBound (len : Nat) (i : Int) : Nat :=
  if i < 0 then (max 0 ((len : Int) + i)).toNat else min i.toNat len

/-- Python list slicing `l[a:b]` (step 1). -/
def pySlice {α : Type} (l : List α) (a b : Int) : List α :=
  (l.take (pySliceBound l.length b)).drop (pySliceBound l.length a)

/-- Python `range(a, b)` as a list. -/
def pyRange (a b : Int) : List Int :=
  (List.range (b - a).toNat).map (fun k : Nat => a + (k : Int))

/-- A run of `n` spaces. -/
def spaces (n : Nat) : String := String.mk (List.replicate n ' ')

/-- Python's `f"{n:4d}"`: decimal, right-aligned in width 4. -/
def pyFmt4 (n : Int) : String :=
  let s := toString n
  if s.length < 4 then spaces (4 - s.length) ++ s else s

/-- Python's `s * n` string repetition. -/
def strRepeat (s : String) (n : Nat) : String := String.join (List.replicate n s)

/-- Universal-newline translation performed by reading a file in text
mode: `\r\n` and lone `\r` both become `\n`. -/
def uNewAux : List Char → List Char
  | [] => []
  | '\r' :: '\n' :: r => '\n' :: uNewAux r
  | '\r' :: r => '\n' :: uNewAux r
  | c :: r => c :: uNewAux r

/-- The text produced by `open(path, 'r').read()` from stored content `s`. -/
def uNewlines (s : String) : String := String.mk (uNewAux s.data)

/-- Helper for `str.splitlines()`: `cur` holds the current line reversed. -/
def pySplitlinesAux (cur : List Char) : List Char → List String
  | [] => if cur.isEmpty then [] else [String.mk cur.reverse]
  | '\r' :: '\n' :: r => String.mk cur.reverse :: pySplitlinesAux [] r
  | '\r' :: r => String.mk cur.reverse :: pySplitlinesAux [] r
  | '\n' :: r => String.mk cur.reverse :: pySplitlinesAux [] r
  | c :: r => pySplitlinesAux (c :: cur) r

/-- Python `str.splitlines()` restricted to the `\n`, `\r\n`, `\r`
terminators (the exotic Unicode line boundaries are not modelled; every
concrete input below uses `\n` only). -/
def pySplitlines (s : String) : List String := pySplitlinesAux [] s.data

/-- Helper for `readlines`: split at `\n` keeping the terminator. -/
def splitKeepAux (cur : List Char) : List Char → List String
  | [] => if cur.isEmpty then [] else [String.mk cur.reverse]
  | '\n' :: r => String.mk ('\n' :: cur).reverse :: splitKeepAux [] r
  | c :: r => splitKeepAux (c :: cur) r

/-- `open(path).readlines()` from stored content: universal-newline
translation followed by splitting after each `\n`, keeping terminators. -/
def pyReadlines (content : String) : List String := splitKeepAux [] (uNewAux content.data)

/-- `'\n'.join(...)`. -/
def joinNL (ls : List String) : String := String.intercalate "\n" ls

/-- POSIX `os.path.dirname`. -/
def pyDirname (p : String) : String :=
  let rev := p.data.reverse
  if rev.contains '/' then
    let tail := rev.dropWhile (fun c => c != '/')
    if tail.all (fun c => c == '/') then String.mk tail.reverse
    else String.mk ((tail.dropWhile (fun c => c == '/')).reverse)
  else ""

/-- POSIX `os.path.basename`. -/
def pyBasename (p : String) : String :=
  String.mk ((p.data.reverse.takeWhile (fun c => c != '/')).reverse)

/-- POSIX `os.path.join` for two components. -/
def pyJoin (a b : String) : String :=
  if pyStartsWithB b "/" then b
  else if a = "" || a.data.getLast? == some '/' then a ++ b
  else a ++ "/" ++ b

/-- `pathlib.Path(p).suffix`: the extension of the final component. -/
def pySuffix (p : String) : String :=
  let name := (pyBasename p).data
  if name.contains '.' then
    let k := name.reverse.indexOf '.'
    let i := name.length - 1 - k
    if 0 < i && i < name.length - 1 then String.mk (name.drop i) else ""
  else ""

/-- `pathlib.Path(p).parent` rendered as a string (simplified: no path
normalisation beyond `dirname`; a bare name has parent `"."`). -/
def pyParent (p : String) : String :=
  let d := pyDirname p
  if d = "" then "." else d

/-- Python's `a or b` on optional strings: the first operand wins unless
it is `None` or the empty (falsy) string. -/
def pyOr (a b : Option String) : Option String :=
  match a with
  | some s => if s = "" then b else some s
  | none => b

/-- How an optional string renders inside an f-string (`None` prints as
`"None"`). -/
def optStr (o : Option String) : String :=
  match o with
  | some s => s
  | none => "None"

/-! ## Filesystem model

A path maps to nothing, a regular file with stored content, or a
directory with the list of its entry names.  Sizes are modelled as
character counts (all concrete contents below are ASCII). -/

inductive Entry : Type where
  | file (content : String) : Entry
  | dir (items : List String) : Entry
deriving DecidableEq

def FS : Type := String → Option Entry

/-- The empty filesystem. -/
def emptyFS : FS := fun _ => none

/-- `os.path.exists`. -/
def pathExists (fs : FS) (p : String) : Bool := (fs p).isSome

/-- `os.path.isdir`. -/
def isDir (fs : FS) (p : String) : Bool :=
  match fs p with
  | some (Entry.dir _) => true
  | _ => false

/-- `os.path.isfile`. -/
def isFile (fs : FS) (p : String) : Bool :=
  match fs p with
  | some (Entry.file _) => true
  | _ => false

/-! ## `file_tools.py`

Each tool gets an explicit `exn : Option String` parameter: `some m`
models an arbitrary runtime fault raised inside the body (Python can
fault almost anywhere), which the source's final `except Exception`
clause converts to a string; `none` is the ordinary run.  Deterministic
faults of the modelled OS calls (`open` on a missing path, ...) are
produced by the body itself via `Except`. -/

/-- The body of `read_file` (file_tools.py lines 31-32): `open` followed
by `read`.  There is no precondition check; a missing path or a
directory makes `open` raise, here an `Except.error` carrying the
`str(e)` text of the corresponding `OSError`. -/
def readFileBody (fs : FS) (p : String) (exn : Option String) : Except String String :=
  match exn with
  | some m => Except.error m
  | none =>
    match fs p with
    | some (Entry.file c) => Except.ok (uNewlines c)
    | some (Entry.dir _) => Except.error ("[Errno 21] Is a directory: '" ++ p ++ "'")
    | none => Except.error ("[Errno 2] No such file or directory: '" ++ p ++ "'")

/-- `read_file` (file_tools.py lines 20-34). -/
def read_file (fs : FS) (p : String) (exn : Option String) : String :=
  match readFileBody fs p exn with
  | Except.ok c => c
  | Except.error m => "Error reading file: " ++ m

/-- `os.makedirs(d, exist_ok=True)`: fails on the empty path (as
`os.makedirs('')` does) and when `d` already exists as a file; otherwise
it records `d` as a directory.  (Conflicts on intermediate components
are not modelled; no theorem below depends on them.) -/
def pyMakedirs (fs : FS) (d : String) : Except String FS :=
  if d = "" then Except.error "[Errno 2] No such file or directory: ''"
  else
    match fs d with
    | some (Entry.dir _) => Except.ok fs
    | some (Entry.file _) => Except.error ("[Errno 17] File exists: '" ++ d ++ "'")
    | none => Except.ok (fun q => if q = d then some (Entry.dir []) else fs q)

/-- `write_file` (file_tools.py lines 37-56): `makedirs` on the dirname,
then `open(p, 'w')` and `write(content)`.  Writing stores the content
verbatim (`os.linesep` is `\n` on the modelled platform).  Returns the
tool's string and the new filesystem. -/
def write_file (fs : FS) (p content : String) (exn : Option String) : String × FS :=
  match exn with
  | some m => ("Error writing file: " ++ m, fs)
  | none =>
    match pyMakedirs fs (pyDirname p) with
    | Except.error m => ("Error writing file: " ++ m, fs)
    | Except.ok fs1 =>
      match fs1 p with
      | some (Entry.dir _) =>
        ("Error writing file: [Errno 21] Is a directory: '" ++ p ++ "'", fs1)
      | _ =>
        ("Successfully wrote to " ++ p,
         fun q => if q = p then some (Entry.file content) else fs1 q)

/-- `os.path.getsize` inside the `list_directory` loop: raises on a
path that does not exist. -/
def pyGetsize (fs : FS) (p : String) : Except String Nat :=
  match fs p with
  | some (Entry.file c) => Except.ok c.length
  | some (Entry.dir _) => Except.ok 0
  | none => Except.error ("[Errno 2] No such file or directory: '" ++ p ++ "'")

/-- The classification loop of `list_directory` (file_tools.py lines
84-90): build the `[DIR] ...` and `[FILE] ...` lines in order. -/
def listDirLoop (fs : FS) (d : String) :
    List String → Except String (List String × List String)
  | [] => Except.ok ([], [])
  | item :: rest =>
    let itemPath := pyJoin d item
    if isDir fs itemPath then
      match listDirLoop fs d rest with
      | Except.error m => Except.error m
      | Except.ok (ds, fsl) => Except.ok (("[DIR] " ++ item) :: ds, fsl)
    else
      match pyGetsize fs itemPath with
      | Except.error m => Except.error m
      | Except.ok size =>
        match listDirLoop fs d rest with
        | Except.error m => Except.error m
        | Except.ok (ds, fsl) =>
          Except.ok (ds, ("[FILE] " ++ item ++ " (" ++ toString size ++ " bytes)") :: fsl)

/-- `list_directory` (file_tools.py lines 59-100), with its explicit
existence and directory preconditions checked before `os.listdir`. -/
def list_directory (fs : FS) (d : String) (exn : Option String) : String :=
  match exn with
  | some m => "Error listing directory: " ++ m
  | none =>
    if !(pathExists fs d) then "Directory '" ++ d ++ "' does not exist"
    else if !(isDir fs d) then "'" ++ d ++ "' is not a directory"
    else
      match fs d with
      | some (Entry.dir items) =>
        if items.isEmpty then "Directory '" ++ d ++ "' is empty"
        else
          match listDirLoop fs d items with
          | Except.error m => "Error listing directory: " ++ m
          | Except.ok (ds, fsl) =>
            "Contents of '" ++ d ++ "':\n\n" ++
            (if !ds.isEmpty then "Directories:\n" ++ joinNL ds ++ "\n\n" else "") ++
            (if !fsl.isEmpty then "Files:\n" ++ joinNL fsl else "")
      | _ => "Error listing directory: unreachable"

/-- `create_directory` (file_tools.py lines 103-117). -/
def create_directory (fs : FS) (d : String) (exn : Option String) : String × FS :=
  match exn with
  | some m => ("Error creating directory: " ++ m, fs)
  | none =>
    match pyMakedirs fs d with
    | Except.error m => ("Error creating directory: " ++ m, fs)
    | Except.ok fs1 => ("Successfully created directory '" ++ d ++ "'", fs1)

/-- `delete_file_or_path` (file_tools.py lines 120-141): explicit
existence precondition, then `shutil.rmtree` for a directory (removing
the whole subtree) or `os.remove` for a file. -/
def delete_file_or_path (fs : FS) (p : String) (exn : Option String) : String × FS :=
  match exn with
  | some m => ("Error deleting path: " ++ m, fs)
  | none =>
    if !(pathExists fs p) then ("Path '" ++ p ++ "' does not exist", fs)
    else if isDir fs p then
      ("Successfully deleted directory '" ++ p ++ "'",
       fun q => if q = p || pyStartsWithB q (p ++ "/") then none else fs q)
    else
      ("Successfully deleted file '" ++ p ++ "'",
       fun q => if q = p then none else fs q)

/-- Remap a path under `src` to the same relative position under `dst`
(used to model `shutil.copytree` / `shutil.move` on directories). -/
def subtreeAt (fs : FS) (src dst : String) : FS := fun q =>
  if q = dst then fs src
  else if pyStartsWithB q (dst ++ "/") then
    fs (src ++ "/" ++ (q.drop (dst.length + 1)))
  else fs q

/-- `copy_file_or_path` (file_tools.py lines 144-166): explicit source
existence precondition, then `shutil.copytree` (which raises if the
destination already exists) or `shutil.copy2`. -/
def copy_file_or_path (fs : FS) (src dst : String) (exn : Option String) : String × FS :=
  match exn with
  | some m => ("Error copying: " ++ m, fs)
  | none =>
    if !(pathExists fs src) then ("Source path '" ++ src ++ "' does not exist", fs)
    else if isDir fs src then
      if pathExists fs dst then
        ("Error copying: [Errno 17] File exists: '" ++ dst ++ "'", fs)
      else
        ("Successfully copied directory from '" ++ src ++ "' to '" ++ dst ++ "'",
         fun q => if q = dst || pyStartsWithB q (dst ++ "/") then subtreeAt fs src dst q else fs q)
    else
      ("Successfully copied file from '" ++ src ++ "' to '" ++ dst ++ "'",
       fun q => if q = dst then fs src else fs q)

/-- `move_file_or_path` (file_tools.py lines 169-187): explicit source
existence precondition, then `shutil.move` (modelled as copy of the
subtree followed by removal of the source). -/
def move_file_or_path (fs : FS) (src dst : String) (exn : Option String) : String × FS :=
  match exn with
  | some m => ("Error moving: " ++ m, fs)
  | none =>
    if !(pathExists fs src) then ("Source path '" ++ src ++ "' does not exist", fs)
    else
      ("Successfully moved from '" ++ src ++ "' to '" ++ dst ++ "'",
       fun q =>
         if q = src || pyStartsWithB q (src ++ "/") then none
         else if q = dst || pyStartsWithB q (dst ++ "/") then subtreeAt fs src dst q
         else fs q)

/-- The fields of `os.stat` displayed by `get_file_info`; the float
timestamps are abstracted as their printed form. -/
structure StatData : Type where
  size : Nat
  ctime : String
  mtime : String
  atime : String

/-- `get_file_info` (file_tools.py lines 190-220): explicit existence
precondition, then a report built from `os.stat` and `pathlib`. -/
def get_file_info (fs : FS) (p : String) (st : StatData) (exn : Option String) : String :=
  match exn with
  | some m => "Error getting file info: " ++ m
  | none =>
    if !(pathExists fs p) then "Path '" ++ p ++ "' does not exist"
    else
      "Information for '" ++ p ++ "':\n\n" ++
      "Type: " ++ (if isDir fs p then "Directory" else "File") ++ "\n" ++
      "Size: " ++ toString st.size ++ " bytes\n" ++
      "Created: " ++ st.ctime ++ "\n" ++
      "Modified: " ++ st.mtime ++ "\n" ++
      "Accessed: " ++ st.atime ++ "\n" ++
      (if isFile fs p then
        "Extension: " ++ pySuffix p ++ "\n" ++
        "Parent directory: " ++ pyParent p ++ "\n"
      else "")

/-- The result-building loop of `search_files`; `matches` is the list
of paths returned by `Path(dir_path).rglob(pattern)` (glob matching
itself is abstracted: the matches are a parameter). -/
def searchFilesLoop (fs : FS) : List String → String
  | [] => ""
  | m :: rest =>
    (if isFile fs m then
      let size := match fs m with
        | some (Entry.file c) => c.length
        | _ => 0
      "[FILE] " ++ m ++ " (" ++ toString size ++ " bytes)\n"
    else "[DIR] " ++ m ++ "\n") ++ searchFilesLoop fs rest

/-- `search_files` (file_tools.py lines 223-257): explicit existence
and directory preconditions before the glob. -/
def search_files (fs : FS) (d pat : String) (globMatches : List String)
    (exn : Option String) : String :=
  match exn with
  | some m => "Error searching files: " ++ m
  | none =>
    if !(pathExists fs d) then "Directory '" ++ d ++ "' does not exist"
    else if !(isDir fs d) then "'" ++ d ++ "' is not a directory"
    else if globMatches.isEmpty then
      "No files found matching pattern '" ++ pat ++ "' in '" ++ d ++ "'"
    else
      "Files matching pattern '" ++ pat ++ "' in '" ++ d ++ "':\n\n" ++
      searchFilesLoop fs globMatches

/-- `get_current_working_directory` (file_tools.py lines 260-272). -/
def get_current_working_directory (cwd : String) (exn : Option String) : String :=
  match exn with
  | some m => "Error getting current directory: " ++ m
  | none => cwd

/-- `change_working_directory` (file_tools.py lines 275-289): `os.chdir`
raises when the target is missing or not a directory (there is no
explicit precondition check); on success the new working directory is
reported.  Returns the tool's string and the new working directory. -/
def change_working_directory (fs : FS) (cwd d : String) (exn : Option String) :
    String × String :=
  match exn with
  | some m => ("Error changing directory: " ++ m, cwd)
  | none =>
    match fs d with
    | some (Entry.dir _) =>
      let newCwd := if pyStartsWithB d "/" then d else pyJoin cwd d
      ("Successfully changed directory to '" ++ d ++ "'. Current directory: " ++ newCwd,
       newCwd)
    | some (Entry.file _) =>
      ("Error changing directory: [Errno 20] Not a directory: '" ++ d ++ "'", cwd)
    | none =>
      ("Error changing directory: [Errno 2] No such file or directory: '" ++ d ++ "'", cwd)

/-! ## `bash_tools.py`

The result of a `subprocess` invocation is a parameter: either the
process completed (with captured stdout, stderr, return code), or the
configured timeout expired, or some other exception was raised by the
call.  For `subprocess.run`, a `timedOut` outcome means the library has
already killed the child and then raised `TimeoutExpired` (the
documented `subprocess.run` contract); for `Popen.communicate` the
child is still alive when `TimeoutExpired` is raised and only an
explicit `kill` terminates it. -/

inductive RunOutcome : Type where
  | completed (stdout stderr : String) (returncode : Int) : RunOutcome
  | timedOut : RunOutcome
  | exc (msg : String) : RunOutcome
deriving DecidableEq

/-- The `timeout=` argument of the `subprocess.run` call in
`execute_command` (bash_tools.py line 35). -/
def executeCommandTimeoutSeconds : Nat := 30

/-- The `timeout=` argument of the `subprocess.run` call in
`execute_command_with_cwd` (bash_tools.py line 82). -/
def executeCommandWithCwdTimeoutSeconds : Nat := 30

/-- The `timeout=` argument of the `communicate` call in
`execute_interactive_command` (bash_tools.py line 130). -/
def executeInteractiveTimeoutSeconds : Nat := 10

/-- `execute_command` (bash_tools.py lines 18-54). -/
def execute_command (command : String) (r : RunOutcome) (exn : Option String) : String :=
  match exn with
  | some m => "Error executing command: " ++ m
  | none =>
    match r with
    | RunOutcome.completed out err rc =>
      let output :=
        (if out ≠ "" then "STDOUT:\n" ++ out else "") ++
        (if err ≠ "" then "\nSTDERR:\n" ++ err else "")
      let output :=
        if output = "" then "Command executed successfully with no output" else output
      output ++ "\n\nExit code: " ++ toString rc
    | RunOutcome.timedOut =>
      "Command timed out after " ++ toString executeCommandTimeoutSeconds ++
      " seconds: " ++ command
    | RunOutcome.exc m => "Error executing command: " ++ m

/-- `execute_command_with_cwd` (bash_tools.py lines 57-101): explicit
existence and directory preconditions on the working directory before
the subprocess call. -/
def execute_command_with_cwd (fs : FS) (command workingDir : String)
    (r : RunOutcome) (exn : Option String) : String :=
  match exn with
  | some m => "Error executing command: " ++ m
  | none =>
    if !(pathExists fs workingDir) then
      "Working directory '" ++ workingDir ++ "' does not exist"
    else if !(isDir fs workingDir) then
      "'" ++ workingDir ++ "' is not a directory"
    else
      match r with
      | RunOutcome.completed out err rc =>
        "Command executed in directory: " ++ workingDir ++ "\n\n" ++
        (if out ≠ "" then "STDOUT:\n" ++ out else "") ++
        (if err ≠ "" then "\nSTDERR:\n" ++ err else "") ++
        (if out = "" && err = "" then "Command executed successfully with no output" else "") ++
        "\n\nExit code: " ++ toString rc
      | RunOutcome.timedOut =>
        "Command timed out after " ++ toString executeCommandWithCwdTimeoutSeconds ++
        " seconds: " ++ command
      | RunOutcome.exc m => "Error executing command: " ++ m

/-- `execute_interactive_command` (bash_tools.py lines 104-149).  The
second component records whether the spawned process has been killed by
the tool: the `TimeoutExpired` handler calls `process.kill()` before
returning its message. -/
def execute_interactive_command (command : String) (r : RunOutcome)
    (exn : Option String) : String × Bool :=
  match exn with
  | some m => ("Error executing interactive command: " ++ m, false)
  | none =>
    match r with
    | RunOutcome.completed out err rc =>
      let output :=
        (if out ≠ "" then "STDOUT:\n" ++ out else "") ++
        (if err ≠ "" then "\nSTDERR:\n" ++ err else "")
      let output := if output = "" then "Command executed with no output" else output
      (output ++ "\n\nExit code: " ++ toString rc, false)
    | RunOutcome.timedOut =>
      ("Interactive command timed out after " ++ toString executeInteractiveTimeoutSeconds ++
       " seconds: " ++ command, true)
    | RunOutcome.exc m => ("Error executing interactive command: " ++ m, false)

/-- `check_command_exists` (bash_tools.py lines 152-182).  `shlex.split`
is abstracted: `firstTok` is its first token for the given command (the
claims below never depend on its value); `whichResult` is the outcome of
the `which` subprocess. -/
def check_command_exists (command : String) (firstTok : String)
    (whichResult : RunOutcome) (exn : Option String) : String :=
  match exn with
  | some m => "Error checking command: " ++ m
  | none =>
    let commandName := if pyStrip command = "" then "" else firstTok
    if commandName = "" then "No command provided"
    else
      match whichResult with
      | RunOutcome.completed out _ rc =>
        if rc = 0 then "Command '" ++ commandName ++ "' exists at: " ++ pyStrip out
        else "Command '" ++ commandName ++ "' not found in PATH"
      | _ => "Error checking command: subprocess failure"

/-- The process environment, as consulted by `os.environ.get`. -/
def Env : Type := String → Option String

/-- `get_environment_variable` (bash_tools.py lines 185-202). -/
def get_environment_variable (env : Env) (varName : String) (exn : Option String) : String :=
  match exn with
  | some m => "Error getting environment variable: " ++ m
  | none =>
    match env varName with
    | some v => varName ++ "=" ++ v
    | none => "Environment variable '" ++ varName ++ "' is not set"

/-- `set_environment_variable` (bash_tools.py lines 205-223). -/
def set_environment_variable (env : Env) (varName value : String) (exn : Option String) :
    String × Env :=
  match exn with
  | some m => ("Error setting environment variable: " ++ m, env)
  | none =>
    ("Successfully set " ++ varName ++ "=" ++ value,
     fun k => if k = varName then some value else env k)

/-- `list_environment_variables` (bash_tools.py lines 226-245); the
environment is given as an association list, sorted by name as in the
source. -/
def list_environment_variables (envList : List (String × String)) (exn : Option String) :
    String :=
  match exn with
  | some m => "Error listing environment variables: " ++ m
  | none =>
    (envList.mergeSort (fun a b => a.1 ≤ b.1)).foldl
      (fun acc kv => acc ++ kv.1 ++ "=" ++ kv.2 ++ "\n")
      "Environment Variables:\n\n"

/-- `get_current_user` (bash_tools.py lines 248-274): note the Python
`or` fallbacks and that a missing variable renders as `None`. -/
def get_current_user (env : Env) (cwd : String) (exn : Option String) : String :=
  match exn with
  | some m => "Error getting user information: " ++ m
  | none =>
    let username := pyOr (env "USER") (env "USERNAME")
    let homeDir := pyOr (env "HOME") (env "USERPROFILE")
    "Current User Information:\n\n" ++
    "Username: " ++ optStr username ++ "\n" ++
    "Home Directory: " ++ optStr homeDir ++ "\n" ++
    "Current Working Directory: " ++ cwd ++ "\n"

/-! ## `paper_tools.py` -/

/-- The header regular expression `^(#{1,6})\s+(.+)$` of
`read_markdown_sections` (paper_tools.py line 173): 1-6 leading `#`,
at least one whitespace character, then at least one further character.
Returns the level and the stripped group-2 text (stripping group 2 is
the same as stripping everything after the hashes, since only leading
whitespace separates them). -/
def headerMatch (line : String) : Option (Nat × String) :=
  let cs := line.data
  let hashes := cs.takeWhile (fun c => c == '#')
  let rest := cs.dropWhile (fun c => c == '#')
  if 1 ≤ hashes.length && hashes.length ≤ 6 then
    match rest with
    | c :: _ :: _ =>
      if isPySpace c then some (hashes.length, String.mk (pyStripL rest)) else none
    | _ => none
  else none

/-- The `current_section` dictionary built at paper_tools.py line 182.
`line` is `lines.index(line) + 1`: the 1-based position of the FIRST
occurrence of the header's text in the file. -/
structure SecInfo : Type where
  name : String
  level : Nat
  line : Nat
deriving DecidableEq

/-- The section-collecting loop of `read_markdown_sections`
(paper_tools.py lines 172-189).  State: remaining lines, the current
section, its accumulated content, the finished sections.  Note that
when a header is met while `current_section` is `None`, the accumulated
pre-header content is discarded (nothing is saved), exactly as in the
source. -/
def sectionsLoop (allLines : List String) :
    List String → Option SecInfo → List String → List (SecInfo × String) →
    List (SecInfo × String) × Option SecInfo × List String
  | [], cur, curContent, secs => (secs, cur, curContent)
  | l :: rest, cur, curContent, secs =>
    match headerMatch l with
    | some (lvl, nm) =>
      let secs1 := match cur with
        | some s => secs ++ [(s, joinNL curContent)]
        | none => secs
      sectionsLoop allLines rest (some ⟨nm, lvl, allLines.indexOf l + 1⟩) [l] secs1
    | none =>
      match cur with
      | some _ => sectionsLoop allLines rest cur (curContent ++ [l]) secs
      | none =>
        sectionsLoop allLines rest cur
          (if curContent.isEmpty then [l] else curContent ++ [l]) secs

/-- The full section list of a file (paper_tools.py lines 166-193),
including the final save of the last open section. -/
def sectionsOf (lines : List String) : List (SecInfo × String) :=
  match sectionsLoop lines lines none [] [] with
  | (secs, some s, curContent) => secs ++ [(s, joinNL curContent)]
  | (secs, none, _) => secs

/-- One line of the section listing (paper_tools.py lines 205-206). -/
def sectionListingLine (si : SecInfo) : String :=
  strRepeat "  " (si.level - 1) ++ "- " ++ si.name ++ " (Line " ++ toString si.line ++ ")\n"

/-- The lookup loop of `read_markdown_sections` (paper_tools.py lines
211-216): first section whose (truthy, i.e. non-empty) name contains
the query case-insensitively. -/
def lookupLoop (q : String) : List (SecInfo × String) → Option (SecInfo × String)
  | [] => none
  | (si, c) :: rest =>
    if si.name != "" && pyInB (pyLower q) (pyLower si.name) then some (si, c)
    else lookupLoop q rest

/-- `read_markdown_sections` from the file's text content onwards
(paper_tools.py lines 166-218). -/
def read_markdown_sections_core (filePath content : String)
    (sectionName : Option String) : String :=
  let lines := pySplitlines content
  let sections := sectionsOf lines
  match sectionName with
  | none =>
    "=== Sections in " ++ filePath ++ " ===\n\n" ++
    (match sections.head? with
     | some (si, _) =>
       if si.name = "" then "[Preamble] (Lines 1-" ++ toString (si.line - 1) ++ ")\n"
       else ""
     | none => "") ++
    sections.foldl
      (fun acc sc => if sc.1.name != "" then acc ++ sectionListingLine sc.1 else acc) ""
  | some q =>
    match lookupLoop q sections with
    | some (si, c) =>
      "=== Section: " ++ si.name ++ " ===\n" ++
      "Line: " ++ toString si.line ++ ", Level: " ++ toString si.level ++ "\n\n" ++ c
    | none => "Error: Section '" ++ q ++ "' not found in file"

/-- `read_markdown_sections` (paper_tools.py lines 149-220): existence
precondition, `open(...).read()`, then the core. -/
def read_markdown_sections (fs : FS) (p : String) (sectionName : Option String)
    (exn : Option String) : String :=
  match exn with
  | some m => "Error reading markdown sections: " ++ m
  | none =>
    match fs p with
    | none => "Error: File '" ++ p ++ "' does not exist"
    | some (Entry.dir _) =>
      "Error reading markdown sections: [Errno 21] Is a directory: '" ++ p ++ "'"
    | some (Entry.file c) => read_markdown_sections_core p (uNewlines c) sectionName

/-- The numbered display loop of `read_markdown_lines` (paper_tools.py
lines 84-85); the line-number list and the selected lines are walked in
lockstep. -/
def readMarkdownLinesFmt (lnums : List Int) (selected : List String) : String :=
  (lnums.zip selected).foldl (fun acc nl => acc ++ pyFmt4 nl.1 ++ " | " ++ nl.2) ""

/-- The clamped selection of `read_markdown_lines` (paper_tools.py
lines 68-78): `start_idx = max(0, start_line - 1)`,
`end_idx = min(total_lines, end_line)` (or `total_lines` when no end is
given), then the slice `lines[start_idx:end_idx]`. -/
def linesSelection (lines : List String) (startLine : Int) (endLine : Option Int) :
    List String :=
  pySlice lines (max 0 (startLine - 1))
    (match endLine with
     | none => (lines.length : Int)
     | some e => min (lines.length : Int) e)

/-- `read_markdown_lines` from the `readlines` result onwards
(paper_tools.py lines 65-87).  `Except.error` models the uncaught
`IndexError` raised by `line_numbers[0]` when the selection is empty
(start within the file but `end_line < start_line`). -/
def read_markdown_lines_core (filePath : String) (lines : List String)
    (startLine : Int) (endLine : Option Int) : Except String String :=
  let total := lines.length
  let startIdx : Int := max 0 (startLine - 1)
  if (total : Int) ≤ startIdx then
    Except.ok ("Error: Start line " ++ toString startLine ++
      " is beyond file length (" ++ toString total ++ " lines)")
  else
    let selected := linesSelection lines startLine endLine
    let lnums := pyRange startLine (min (startLine + selected.length) ((total : Int) + 1))
    match lnums with
    | [] => Except.error "list index out of range"
    | h :: t =>
      Except.ok ("=== Lines " ++ toString h ++ "-" ++ toString ((h :: t).getLastD h) ++
        " from " ++ filePath ++ " ===\n" ++
        "Total file lines: " ++ toString total ++ "\n\n" ++
        readMarkdownLinesFmt (h :: t) selected)

/-- `read_markdown_lines` (paper_tools.py lines 47-89). -/
def read_markdown_lines (fs : FS) (p : String) (startLine : Int) (endLine : Option Int)
    (exn : Option String) : String :=
  match exn with
  | some m => "Error reading markdown lines: " ++ m
  | none =>
    match fs p with
    | none => "Error: File '" ++ p ++ "' does not exist"
    | some (Entry.dir _) =>
      "Error reading markdown lines: [Errno 21] Is a directory: '" ++ p ++ "'"
    | some (Entry.file c) =>
      match read_markdown_lines_core p (pyReadlines c) startLine endLine with
      | Except.ok s => s
      | Except.error m => "Error reading markdown lines: " ++ m

/-- `total_pages` of `read_markdown_pages` (paper_tools.py line 111):
Python floor division `(total_lines + lines_per_page - 1) // lines_per_page`. -/
def totalPages (lpp : Int) (total : Nat) : Int := Int.fdiv ((total : Int) + lpp - 1) lpp

/-- The lines shown on page `pn` (paper_tools.py lines 131-136). -/
def pageSlice (lpp : Int) (lines : List String) (pn : Int) : List String :=
  pySlice lines ((pn - 1) * lpp) (min (pn * lpp) (lines.length : Int))

/-- `read_markdown_pages` from the `readlines` result onwards
(paper_tools.py lines 110-144).  `Except.error` models the
`ZeroDivisionError` of `lines_per_page = 0`. -/
def read_markdown_pages_core (filePath : String) (lines : List String)
    (pageNum : Option Int) (lpp : Int) : Except String String :=
  let total := lines.length
  if lpp = 0 then Except.error "integer division or modulo by zero"
  else
    let tp := totalPages lpp total
    match pageNum with
    | none =>
      Except.ok ("=== File: " ++ filePath ++ " ===\n" ++
        "Total lines: " ++ toString total ++ "\n" ++
        "Lines per page: " ++ toString lpp ++ "\n" ++
        "Total pages: " ++ toString tp ++ "\n\n" ++
        (pyRange 1 (tp + 1)).foldl (fun acc i =>
          acc ++ "Page " ++ toString i ++ ": Lines " ++ toString ((i - 1) * lpp + 1) ++
          "-" ++ toString (min (i * lpp) (total : Int)) ++ "\n") "")
    | some pn =>
      if pn < 1 || tp < pn then
        Except.ok ("Error: Page " ++ toString pn ++ " is out of range. File has " ++
          toString tp ++ " pages.")
      else
        let startLine := (pn - 1) * lpp + 1
        let pageLines := pageSlice lpp lines pn
        Except.ok ("=== Page " ++ toString pn ++ "/" ++ toString tp ++ " from " ++
          filePath ++ " ===\n" ++
          "Lines " ++ toString startLine ++ "-" ++ toString (min (pn * lpp) (total : Int)) ++
          " of " ++ toString total ++ "\n\n" ++
          pageLines.enum.foldl (fun acc il => acc ++ pyFmt4 (startLine + il.1) ++ " | " ++ il.2) "")

/-- `read_markdown_pages` (paper_tools.py lines 92-146). -/
def read_markdown_pages (fs : FS) (p : String) (pageNum : Option Int) (lpp : Int)
    (exn : Option String) : String :=
  match exn with
  | some m => "Error reading markdown pages: " ++ m
  | none =>
    match fs p with
    | none => "Error: File '" ++ p ++ "' does not exist"
    | some (Entry.dir _) =>
      "Error reading markdown pages: [Errno 21] Is a directory: '" ++ p ++ "'"
    | some (Entry.file c) =>
      match read_markdown_pages_core p (pyReadlines c) pageNum lpp with
      | Except.ok s => s
      | Except.error m => "Error reading markdown pages: " ++ m

/-- The context excerpt built for a match at 0-based index `i`
(paper_tools.py lines 246-256). -/
def contextBlock (lines : List String) (i : Nat) (ctx : Int) : String :=
  let startL : Int := max 0 ((i : Int) - ctx)
  let endL : Int := min (lines.length : Int) ((i : Int) + ctx + 1)
  let ctxList := pySlice lines startL endL
  let matchIdx : Int := (i : Int) - startL
  ctxList.enum.foldl (fun acc jl =>
    acc ++ (if (jl.1 : Int) = matchIdx then ">>> " else "    ") ++
    pyFmt4 (startL + jl.1 + 1) ++ " | " ++ jl.2) ""

/-- The match list of `search_markdown_content` (paper_tools.py lines
241-258): `(i + 1, context)` for every line whose lowercased text
contains the lowercased search term. -/
def searchMatches (term : String) (lines : List String) (ctx : Int) : List (Nat × String) :=
  (lines.enum.filter (fun il => pyInB (pyLower term) (pyLower il.2))).map
    (fun il => (il.1 + 1, contextBlock lines il.1 ctx))

/-- `search_markdown_content` from the `readlines` result onwards
(paper_tools.py lines 241-270). -/
def search_markdown_content_core (filePath term : String) (lines : List String)
    (ctx : Int) : String :=
  let ms := searchMatches term lines ctx
  if ms.isEmpty then "No matches found for '" ++ term ++ "' in " ++ filePath
  else
    ms.enum.foldl (fun acc km =>
      acc ++ "Match " ++ toString (km.1 + 1) ++ " (Line " ++ toString km.2.1 ++ "):\n" ++
      km.2.2 ++ "\n")
      ("=== Search Results for '" ++ term ++ "' in " ++ filePath ++ " ===\n" ++
       "Found " ++ toString ms.length ++ " match" ++
       (if ms.length ≠ 1 then "es" else "") ++ "\n\n")

/-- `search_markdown_content` (paper_tools.py lines 223-272). -/
def search_markdown_content (fs : FS) (p term : String) (ctx : Int)
    (exn : Option String) : String :=
  match exn with
  | some m => "Error searching markdown content: " ++ m
  | none =>
    match fs p with
    | none => "Error: File '" ++ p ++ "' does not exist"
    | some (Entry.dir _) =>
      "Error searching markdown content: [Errno 21] Is a directory: '" ++ p ++ "'"
    | some (Entry.file c) => search_markdown_content_core p term (pyReadlines c) ctx

/-! ## Claim theorems -/

/-- The lookup loop returns the first section, in document order, whose
non-empty name contains the query case-insensitively. -/
theorem lookupLoop_eq_find (q : String) (l : List (SecInfo × String)) :
    lookupLoop q l =
      l.find? (fun sc => sc.1.name != "" && pyInB (pyLower q) (pyLower sc.1.name)) := by
  induction l with
  | nil => rfl
  | cons h t ih =>
    obtain ⟨si, c⟩ := h
    by_cases hc : (si.name != "" && pyInB (pyLower q) (pyLower si.name)) = true
    · simp [lookupLoop, List.find?, hc]
    · simp only [Bool.not_eq_true] at hc
      simp [lookupLoop, List.find?, hc, ih]

/-- C1: FALSIFIED BY THE CODE (code bug).  The section line number is
computed with `lines.index(line) + 1` (paper_tools.py line 182), the
first occurrence of the header's *text*; on the file `"# A\nx\n# A"`
both sections report line 1, although the second header really stands
on line 3, so the reported numbers are neither the true header lines
nor monotonically increasing. -/
theorem read_markdown_sections_line_numbers_not_monotone :
    (sectionsOf ["# A", "x", "# A"]).map (fun sc => sc.1.line) = [1, 1] ∧
    ["# A", "x", "# A"][2]? = some "# A" ∧
    read_markdown_sections_core "f.md" "# A\nx\n# A" none =
      "=== Sections in f.md ===\n\n- A (Line 1)\n- A (Line 1)\n" := by
  exact ⟨rfl, rfl, rfl⟩

/-- C2: FALSIFIED BY THE CODE (code bug).  When the first header is
reached with `current_section is None` nothing is saved (paper_tools.py
lines 176-177), so the pre-header content `"intro"` is discarded: the
parsed sections contain only the header section, the listing shows no
preamble entry, and the preamble text occurs nowhere in the output.
(The `[Preamble]` branch at lines 200-201 is dead code, showing the
retention was intended.) -/
theorem read_markdown_sections_preamble_discarded :
    sectionsOf ["intro", "# A", "body"] = [(⟨"A", 1, 2⟩, "# A\nbody")] ∧
    read_markdown_sections_core "f.md" "intro\n# A\nbody" none =
      "=== Sections in f.md ===\n\n- A (Line 2)\n" ∧
    pyInB "intro" (read_markdown_sections_core "f.md" "intro\n# A\nbody" none) = false ∧
    pyInB "Preamble" (read_markdown_sections_core "f.md" "intro\n# A\nbody" none) = false := by
  exact ⟨rfl, rfl, by decide, by decide⟩

/-- C5, counterexample: the header `"#  "` parses with the empty name
(the regex matches and group 2 strips to `""`).  The query `""` is a
substring of that section's name, yet the lookup skips falsy names
(paper_tools.py line 212) and reports "not found" — so the claim's
"substring match against the names of the parsed sections" is not
literally what the code does. -/
theorem read_markdown_sections_empty_name_skipped :
    sectionsOf ["#  "] = [(⟨"", 1, 1⟩, "#  ")] ∧
    pyInB (pyLower "") (pyLower "") = true ∧
    read_markdown_sections_core "f.md" "#  " (some "") =
      "Error: Section '' not found in file" := by
  exact ⟨rfl, rfl, rfl⟩

/-- C5 (amended): for a non-`None` query, `read_markdown_sections`
returns the first section in document order whose NON-EMPTY name
contains the query case-insensitively, rendered with its line and
level, and the "not found" error string when no such section exists. -/
theorem read_markdown_sections_lookup_spec (filePath content q : String) :
    read_markdown_sections_core filePath content (some q) =
      match (sectionsOf (pySplitlines content)).find?
          (fun sc => sc.1.name != "" && pyInB (pyLower q) (pyLower sc.1.name)) with
      | some (si, c) =>
        "=== Section: " ++ si.name ++ " ===\n" ++
        "Line: " ++ toString si.line ++ ", Level: " ++ toString si.level ++ "\n\n" ++ c
      | none => "Error: Section '" ++ q ++ "' not found in file" := by
  simp only [read_markdown_sections_core, lookupLoop_eq_find]

/-- A 25-line file, used for the pagination claims. -/
def lines25 : List String := (List.range 25).map (fun i => "line" ++ toString (i + 1) ++ "\n")

/-- C6, counterexample: requesting page 4 of a 25-line file with
`lines_per_page = 10` does NOT clamp to the nearest valid page (page 3,
lines 21-25); it returns an out-of-range error string instead
(paper_tools.py lines 128-129). -/
theorem read_markdown_pages_out_of_range_not_clamped :
    read_markdown_pages_core "f.md" lines25 (some 4) 10 =
      Except.ok "Error: Page 4 is out of range. File has 3 pages." ∧
    read_markdown_pages_core "f.md" lines25 (some 3) 10 =
      Except.ok ("=== Page 3/3 from f.md ===\nLines 21-25 of 25\n\n" ++
        "  21 | line21\n  22 | line22\n  23 | line23\n  24 | line24\n  25 | line25\n") ∧
    ((read_markdown_pages_core "f.md" lines25 (some 4) 10).toOption.getD "" ==
      (read_markdown_pages_core "f.md" lines25 (some 3) 10).toOption.getD "") = false := by
  exact ⟨rfl, rfl, by decide⟩

/-- C6 (amended): the extraction tools use 1-based indexing; a start
line below 1 is clamped to line 1 and an end line beyond the last line
is clamped to the last line; every extracted line or page selection is
a contiguous in-file segment (never out-of-file content); but a start
line beyond the end of the file, or a page number outside
`1..total_pages`, produces a descriptive error string instead of being
clamped. -/
theorem extraction_bounds_clamped_or_error :
    (∀ (lines : List String) (s : Int) (e : Option Int),
        s ≤ 1 → linesSelection lines s e = linesSelection lines 1 e) ∧
    (∀ (lines : List String) (s x : Int), (lines.length : Int) ≤ x →
        linesSelection lines s (some x) = linesSelection lines s none) ∧
    (∀ (lines : List String) (s : Int) (e : Option Int),
        ∃ a b, linesSelection lines s e = (lines.take b).drop a) ∧
    (∀ (lpp : Int) (lines : List String) (pn : Int),
        ∃ a b, pageSlice lpp lines pn = (lines.take b).drop a) ∧
    (∀ (fp : String) (lines : List String) (s : Int) (e : Option Int),
        (lines.length : Int) ≤ max 0 (s - 1) →
        read_markdown_lines_core fp lines s e =
          Except.ok ("Error: Start line " ++ toString s ++ " is beyond file length (" ++
            toString lines.length ++ " lines)")) ∧
    (∀ (fp : String) (lines : List String) (pn lpp : Int), lpp ≠ 0 →
        (pn < 1 ∨ totalPages lpp lines.length < pn) →
        read_markdown_pages_core fp lines (some pn) lpp =
          Except.ok ("Error: Page " ++ toString pn ++ " is out of range. File has " ++
            toString (totalPages lpp lines.length) ++ " pages.")) := by
  refine ⟨?_, ?_, ?_, ?_, ?_, ?_⟩
  · intro lines s e hs
    unfold linesSelection
    have h1 : max 0 (s - 1) = max 0 ((1 : Int) - 1) := by omega
    rw [h1]
  · intro lines s x hx
    simp only [linesSelection]
    rw [min_eq_left hx]
  · intro lines s e
    exact ⟨_, _, rfl⟩
  · intro lpp lines pn
    exact ⟨_, _, rfl⟩
  · intro fp lines s e h
    simp only [read_markdown_lines_core]
    rw [if_pos h]
  · intro fp lines pn lpp hlpp h
    simp only [read_markdown_pages_core]
    rw [if_neg hlpp]
    rcases h with h | h
    · simp only [totalPages] at h ⊢
      rw [if_pos]
      simp [h]
    · simp only [totalPages] at h ⊢
      rw [if_pos]
      simp [h]

/-- Witness for `extraction_bounds_clamped_or_error` at concrete
inputs: start 0 clamps like start 1, end 9 of a 3-line file clamps like
"to the end", start 5 of a 2-line file gives the beyond-file error, and
page 4 of the 25-line file gives the out-of-range error. -/
theorem extraction_bounds_clamped_or_error_witness :
    linesSelection ["a\n", "b\n", "c\n"] 0 none = linesSelection ["a\n", "b\n", "c\n"] 1 none ∧
    linesSelection ["a\n", "b\n", "c\n"] 1 (some 9) = linesSelection ["a\n", "b\n", "c\n"] 1 none ∧
    read_markdown_lines_core "f.md" ["a\n", "b\n"] 5 none =
      Except.ok ("Error: Start line " ++ toString (5 : Int) ++ " is beyond file length (" ++
        toString (2 : Nat) ++ " lines)") ∧
    read_markdown_pages_core "f.md" lines25 (some 4) 10 =
      Except.ok ("Error: Page " ++ toString (4 : Int) ++ " is out of range. File has " ++
        toString (totalPages 10 lines25.length) ++ " pages.") :=
  ⟨extraction_bounds_clamped_or_error.1 ["a\n", "b\n", "c\n"] 0 none (by norm_num),
   extraction_bounds_clamped_or_error.2.1 ["a\n", "b\n", "c\n"] 1 9 (by norm_num),
   extraction_bounds_clamped_or_error.2.2.2.2.1 "f.md" ["a\n", "b\n"] 5 none (by norm_num),
   extraction_bounds_clamped_or_error.2.2.2.2.2 "f.md" lines25 4 10 (by norm_num)
     (Or.inr (by decide))⟩


/-- A python slice bound that is already a natural number just clamps
to the length. -/
theorem pySliceBound_natCast (len a : Nat) : pySliceBound len (a : Int) = min a len := by
  unfold pySliceBound
  rw [if_neg (by omega)]
  congr 1

/-- Clamping the drop count of a take/drop slice to the list length
does not change the slice. -/
theorem drop_min_length {α : Type} (l : List α) (b a : Nat) :
    (l.take b).drop (min a l.length) = (l.take b).drop a := by
  rcases le_total a l.length with h | h
  · rw [min_eq_left h]
  · rw [min_eq_right h]
    have h1 : (l.take b).length ≤ l.length := by
      rw [List.length_take]; omega
    rw [List.drop_eq_nil_of_le h1, List.drop_eq_nil_of_le (h1.trans h)]

/-- `pageSlice` for a positive page size, in natural-number form:
page `k + 1` is lines `k*L .. min ((k+1)*L) n` (0-based). -/
theorem pageSlice_natCast (L : Nat) (lines : List String) (k : Nat) :
    pageSlice (L : Int) lines ((k : Int) + 1) =
      (lines.take (min ((k + 1) * L) lines.length)).drop (k * L) := by
  unfold pageSlice pySlice
  have ha : ((k : Int) + 1 - 1) * (L : Int) = ((k * L : Nat) : Int) := by push_cast; ring
  have hb : min (((k : Int) + 1) * (L : Int)) ((lines.length : Nat) : Int)
      = ((min ((k + 1) * L) lines.length : Nat) : Int) := by
    push_cast
    ring_nf
  rw [ha, hb]
  simp only [pySliceBound_natCast]
  rw [min_assoc, min_self]
  exact drop_min_length lines ((k + 1) * L ⊓ lines.length) (k * L)

/-- Concatenating the first `k` pages yields the first `min (k*L) n`
lines of the file. -/
theorem join_pages_aux (L : Nat) (lines : List String) :
    ∀ k : Nat,
      ((List.range k).map
        (fun j => (lines.take (min ((j + 1) * L) lines.length)).drop (j * L))).flatten
        = lines.take (min (k * L) lines.length) := by
  intro k
  induction k with
  | zero => simp
  | succ k ih =>
    rw [List.range_succ, List.map_append, List.flatten_append, ih]
    simp only [List.map_cons, List.map_nil, List.flatten_cons, List.flatten_nil,
      List.append_nil]
    have hle : k * L ≤ (k + 1) * L := Nat.mul_le_mul_right L (Nat.le_succ k)
    have h1 : lines.take (min (k * L) lines.length)
        = (lines.take (min ((k + 1) * L) lines.length)).take (k * L) := by
      rw [List.take_take, ← min_assoc, min_eq_left hle]
    rw [h1, List.take_append_drop]

/-- The line count is at most `total_pages * lines_per_page`. -/
theorem n_le_tp_mul (L n : Nat) (hL : 0 < L) : n ≤ ((n + L - 1) / L) * L := by
  have h := le_smul_ceilDiv (α := ℕ) (β := ℕ) (a := L) (b := n) hL
  rw [smul_eq_mul, Nat.ceilDiv_eq_add_pred_div] at h
  calc n ≤ L * ((n + L - 1) / L) := h
    _ = ((n + L - 1) / L) * L := Nat.mul_comm _ _

/-- One page fewer does not cover the file: `total_pages` is the least
sufficient page count. -/
theorem tp_pred_mul_lt (L n : Nat) (hL : 0 < L) (htp : 1 ≤ (n + L - 1) / L) :
    ((n + L - 1) / L - 1) * L < n := by
  by_contra hcon
  push_neg at hcon
  have h2 : n ⌈/⌉ L ≤ (n + L - 1) / L - 1 :=
    (ceilDiv_le_iff_le_smul hL).mpr (by rw [smul_eq_mul, Nat.mul_comm]; exact hcon)
  rw [Nat.ceilDiv_eq_add_pred_div] at h2
  omega

/-- `(n + L - 1) // L` in integer form equals the natural-number value. -/
theorem totalPages_natCast (L n : Nat) (hL : 1 ≤ L) :
    totalPages (L : Int) n = (((n + L - 1) / L : Nat) : Int) := by
  unfold totalPages
  rw [Int.fdiv_eq_ediv _ (by omega : (0 : Int) ≤ (L : Int))]
  have h1 : ((n : Int) + (L : Int) - 1) = ((n + L - 1 : Nat) : Int) := by omega
  rw [h1, ← Int.ofNat_ediv]

/-- `total_pages` equals the rational ceiling of
`total_lines / lines_per_page`. -/
theorem ceil_eq_totalPages (L n : Nat) (hL : 1 ≤ L) :
    ⌈(n : ℚ) / (L : ℚ)⌉ = totalPages (L : Int) n := by
  rw [totalPages_natCast L n hL, Int.ceil_eq_iff, Int.cast_natCast]
  have hL0 : (0 : ℚ) < (L : ℚ) := by exact_mod_cast hL
  constructor
  · rw [lt_div_iff hL0]
    rcases Nat.eq_zero_or_pos ((n + L - 1) / L) with h0 | h0
    · rw [h0]
      push_cast
      have hn : (0 : ℚ) ≤ (n : ℚ) := by positivity
      linarith
    · have hlt := tp_pred_mul_lt L n (by omega) h0
      have hql : (((n + L - 1) / L - 1 : Nat) : ℚ) * (L : ℚ) < (n : ℚ) := by
        exact_mod_cast hlt
      have hsub : (((n + L - 1) / L - 1 : Nat) : ℚ) = (((n + L - 1) / L : Nat) : ℚ) - 1 := by
        push_cast [h0]
        ring
      rw [hsub] at hql
      linarith
  · rw [div_le_iff hL0]
    exact_mod_cast n_le_tp_mul L n (by omega)

/-- Concatenating all pages in order reproduces the file. -/
theorem join_all_pages (L : Nat) (hL : 1 ≤ L) (lines : List String) :
    ((pyRange 1 (totalPages (L : Int) lines.length + 1)).map
      (fun pn => pageSlice (L : Int) lines pn)).flatten = lines := by
  have h1 : pyRange 1 (totalPages (L : Int) lines.length + 1)
      = (List.range ((lines.length + L - 1) / L)).map
          (fun k : Nat => (1 : Int) + (k : Int)) := by
    unfold pyRange
    rw [totalPages_natCast L lines.length hL]
    have h2 : ∀ t : Nat, (((t : Nat) : Int) + 1 - 1).toNat = t := by intro t; omega
    rw [h2]
  rw [h1, List.map_map]
  have h2 : ((List.range ((lines.length + L - 1) / L)).map
      ((fun pn => pageSlice (L : Int) lines pn) ∘ fun k : Nat => (1 : Int) + (k : Int)))
      = (List.range ((lines.length + L - 1) / L)).map
        (fun j => (lines.take (min ((j + 1) * L) lines.length)).drop (j * L)) := by
    apply List.map_congr_left
    intro k _
    show pageSlice (L : Int) lines ((1 : Int) + (k : Int)) = _
    rw [add_comm (1 : Int) (k : Int)]
    exact pageSlice_natCast L lines k
  rw [h2, join_pages_aux L lines ((lines.length + L - 1) / L)]
  rw [min_eq_right (n_le_tp_mul L lines.length (by omega))]
  exact List.take_length lines

/-- C3: for every `lines_per_page ≥ 1` and every
file, `total_pages = ceil(total_lines / lines_per_page)`, and
concatenating pages `1 .. total_pages` in order reproduces exactly the
file's line sequence; in particular on a 25-line file with
`lines_per_page = 10`, page 2 covers exactly lines 11-20 and
`total_pages = 3`, as the rendered tool output also shows. -/
theorem read_markdown_pages_pagination (lpp : Int) (lines : List String) (h : 1 ≤ lpp) :
    (⌈(lines.length : ℚ) / (lpp : ℚ)⌉ = totalPages lpp lines.length) ∧
    ((pyRange 1 (totalPages lpp lines.length + 1)).map
      (fun pn => pageSlice lpp lines pn)).flatten = lines ∧
    totalPages 10 lines25.length = 3 ∧
    pageSlice 10 lines25 2 =
      ["line11\n", "line12\n", "line13\n", "line14\n", "line15\n",
       "line16\n", "line17\n", "line18\n", "line19\n", "line20\n"] ∧
    read_markdown_pages_core "f.md" lines25 (some 2) 10 =
      Except.ok ("=== Page 2/3 from f.md ===\nLines 11-20 of 25\n\n" ++
        "  11 | line11\n  12 | line12\n  13 | line13\n  14 | line14\n  15 | line15\n" ++
        "  16 | line16\n  17 | line17\n  18 | line18\n  19 | line19\n  20 | line20\n") := by
  obtain ⟨L, rfl⟩ : ∃ Lv : Nat, lpp = (Lv : Int) :=
    ⟨lpp.toNat, (Int.toNat_of_nonneg (by omega)).symm⟩
  have hL : 1 ≤ L := by exact_mod_cast h
  exact ⟨ceil_eq_totalPages L lines.length hL, join_all_pages L hL lines, rfl, by decide, rfl⟩

/-- Witness for `read_markdown_pages_pagination` on the 25-line file
with page size 10. -/
theorem read_markdown_pages_pagination_witness :
    (⌈(lines25.length : ℚ) / (((10 : Int)) : ℚ)⌉ = totalPages 10 lines25.length) ∧
    ((pyRange 1 (totalPages 10 lines25.length + 1)).map
      (fun pn => pageSlice 10 lines25 pn)).flatten = lines25 :=
  ⟨(read_markdown_pages_pagination 10 lines25 (by norm_num)).1,
   (read_markdown_pages_pagination 10 lines25 (by norm_num)).2.1⟩

/-- C10: `search_markdown_content` matches case-insensitively: line
`i + 1` is reported as a match exactly when the lowercased search term
is a substring of the lowercased line `i`; and when no line matches the
tool returns the literal `"No matches found for '...' in ..."` string
rather than an empty result. -/
theorem search_markdown_content_case_insensitive (fp term : String) (lines : List String)
    (ctx : Int) :
    (∀ i : Nat, ((i + 1) ∈ (searchMatches term lines ctx).map Prod.fst ↔
        ∃ h : i < lines.length, pyInB (pyLower term) (pyLower (lines.get ⟨i, h⟩)) = true)) ∧
    (searchMatches term lines ctx = [] →
      search_markdown_content_core fp term lines ctx =
        "No matches found for '" ++ term ++ "' in " ++ fp) := by
  constructor
  · intro i
    unfold searchMatches
    rw [List.map_map]
    constructor
    · intro hmem
      rw [List.mem_map] at hmem
      obtain ⟨il, hil, heq⟩ := hmem
      rw [List.mem_filter] at hil
      obtain ⟨hmem2, hp⟩ := hil
      obtain ⟨a, b⟩ := il
      simp only [Function.comp_apply] at heq
      have ha : a = i := by omega
      subst ha
      rw [List.mk_mem_enum_iff_getElem?] at hmem2
      rw [List.getElem?_eq_some] at hmem2
      obtain ⟨h, hb⟩ := hmem2
      refine ⟨h, ?_⟩
      rw [List.get_eq_getElem, hb]
      exact hp
    · rintro ⟨h, hp⟩
      rw [List.mem_map]
      refine ⟨(i, lines.get ⟨i, h⟩), ?_, rfl⟩
      rw [List.mem_filter]
      constructor
      · rw [List.mk_mem_enum_iff_getElem?, List.getElem?_eq_some]
        exact ⟨h, by rw [List.get_eq_getElem]⟩
      · exact hp
  · intro hempty
    unfold search_markdown_content_core
    rw [hempty]
    rfl

/-- Witness for `search_markdown_content_case_insensitive`: on the
one-line file `"abc\n"`, the term `"zzz"` matches nothing and the tool
returns the "No matches found" string; the term `"AbC"` matches line 1. -/
theorem search_markdown_content_case_insensitive_witness :
    search_markdown_content_core "f.md" "zzz" ["abc\n"] 3 =
      "No matches found for '" ++ "zzz" ++ "' in " ++ "f.md" ∧
    ((0 + 1) ∈ (searchMatches "AbC" ["abc\n"] 3).map Prod.fst ↔
      ∃ h : 0 < (["abc\n"] : List String).length,
        pyInB (pyLower "AbC") (pyLower ((["abc\n"] : List String).get ⟨0, h⟩)) = true) :=
  ⟨(search_markdown_content_case_insensitive "f.md" "zzz" ["abc\n"] 3).2 (by decide),
   (search_markdown_content_case_insensitive "f.md" "AbC" ["abc\n"] 3).1 0⟩

/-- C4, counterexample: the `subprocess.TimeoutExpired` handler of
`execute_command` (bash_tools.py lines 51-52) converts the fault into
`"Command timed out after 30 seconds: <command>"`, which is not of the
claimed `"Error <doing X>: <message>"` shape (it does not even start
with `"Error"`). -/
theorem execute_command_timeout_not_error_shaped :
    execute_command "sleep 60" RunOutcome.timedOut none =
      "Command timed out after 30 seconds: sleep 60" ∧
    pyStartsWithB (execute_command "sleep 60" RunOutcome.timedOut none) "Error" = false := by
  exact ⟨rfl, by decide⟩

/-- C4 (amended): no registered tool lets a fault escape: every tool is
a total string-valued function of its body outcome, and a fault raised
in the body is converted to a descriptive string.  Every fault other
than a subprocess timeout yields the tool's `"Error <doing X>: <m>"`
string; the timeout handlers of `execute_command` and
`execute_command_with_cwd` (30 s) and `execute_interactive_command`
(10 s) instead yield `"...timed out after N seconds: <command>"`
strings without the `Error` prefix. -/
theorem tools_convert_faults_to_strings :
    (∀ (fs : FS) (p m : String), read_file fs p (some m) = "Error reading file: " ++ m) ∧
    (∀ (fs : FS) (p c m : String),
      (write_file fs p c (some m)).1 = "Error writing file: " ++ m) ∧
    (∀ (fs : FS) (d m : String), list_directory fs d (some m) = "Error listing directory: " ++ m) ∧
    (∀ (fs : FS) (d m : String),
      (create_directory fs d (some m)).1 = "Error creating directory: " ++ m) ∧
    (∀ (fs : FS) (p m : String),
      (delete_file_or_path fs p (some m)).1 = "Error deleting path: " ++ m) ∧
    (∀ (fs : FS) (src dst m : String),
      (copy_file_or_path fs src dst (some m)).1 = "Error copying: " ++ m) ∧
    (∀ (fs : FS) (src dst m : String),
      (move_file_or_path fs src dst (some m)).1 = "Error moving: " ++ m) ∧
    (∀ (fs : FS) (p m : String) (st : StatData),
      get_file_info fs p st (some m) = "Error getting file info: " ++ m) ∧
    (∀ (fs : FS) (d pat m : String) (g : List String),
      search_files fs d pat g (some m) = "Error searching files: " ++ m) ∧
    (∀ (cwd m : String),
      get_current_working_directory cwd (some m) = "Error getting current directory: " ++ m) ∧
    (∀ (fs : FS) (cwd d m : String),
      (change_working_directory fs cwd d (some m)).1 = "Error changing directory: " ++ m) ∧
    (∀ (cmd m : String) (r : RunOutcome),
      execute_command cmd r (some m) = "Error executing command: " ++ m) ∧
    (∀ (cmd m : String), execute_command cmd (RunOutcome.exc m) none =
      "Error executing command: " ++ m) ∧
    (∀ (fs : FS) (cmd wd m : String) (r : RunOutcome),
      execute_command_with_cwd fs cmd wd r (some m) = "Error executing command: " ++ m) ∧
    (∀ (cmd m : String) (r : RunOutcome),
      (execute_interactive_command cmd r (some m)).1 =
        "Error executing interactive command: " ++ m) ∧
    (∀ (cmd tok m : String) (r : RunOutcome),
      check_command_exists cmd tok r (some m) = "Error checking command: " ++ m) ∧
    (∀ (env : Env) (v m : String),
      get_environment_variable env v (some m) = "Error getting environment variable: " ++ m) ∧
    (∀ (env : Env) (v val m : String),
      (set_environment_variable env v val (some m)).1 =
        "Error setting environment variable: " ++ m) ∧
    (∀ (el : List (String × String)) (m : String),
      list_environment_variables el (some m) = "Error listing environment variables: " ++ m) ∧
    (∀ (env : Env) (cwd m : String),
      get_current_user env cwd (some m) = "Error getting user information: " ++ m) ∧
    (∀ (fs : FS) (p m : String) (s : Int) (e : Option Int),
      read_markdown_lines fs p s e (some m) = "Error reading markdown lines: " ++ m) ∧
    (∀ (fs : FS) (p m : String) (pg : Option Int) (lpp : Int),
      read_markdown_pages fs p pg lpp (some m) = "Error reading markdown pages: " ++ m) ∧
    (∀ (fs : FS) (p m : String) (sn : Option String),
      read_markdown_sections fs p sn (some m) = "Error reading markdown sections: " ++ m) ∧
    (∀ (fs : FS) (p t m : String) (cx : Int),
      search_markdown_content fs p t cx (some m) =
        "Error searching markdown content: " ++ m) ∧
    (∀ (cmd : String), execute_command cmd RunOutcome.timedOut none =
      "Command timed out after 30 seconds: " ++ cmd) ∧
    (∀ (fs : FS) (cmd wd : String) (items : List String),
      fs wd = some (Entry.dir items) →
      execute_command_with_cwd fs cmd wd RunOutcome.timedOut none =
        "Command timed out after 30 seconds: " ++ cmd) ∧
    (∀ (cmd : String), execute_interactive_command cmd RunOutcome.timedOut none =
      ("Interactive command timed out after 10 seconds: " ++ cmd, true)) := by
  refine ⟨fun _ _ _ => rfl, fun _ _ _ _ => rfl, fun _ _ _ => rfl, fun _ _ _ => rfl,
    fun _ _ _ => rfl, fun _ _ _ _ => rfl, fun _ _ _ _ => rfl, fun _ _ _ _ => rfl,
    fun _ _ _ _ _ => rfl, fun _ _ => rfl, fun _ _ _ _ => rfl, fun _ _ _ => rfl,
    fun _ _ => rfl, fun _ _ _ _ _ => rfl, fun _ _ _ => rfl, fun _ _ _ _ => rfl,
    fun _ _ _ => rfl, fun _ _ _ _ => rfl, fun _ _ => rfl, fun _ _ _ => rfl,
    fun _ _ _ _ _ => rfl, fun _ _ _ _ _ => rfl, fun _ _ _ _ => rfl, fun _ _ _ _ _ => rfl,
    fun _ => rfl, ?_, fun _ => rfl⟩
  intro fs cmd wd items h
  unfold execute_command_with_cwd
  simp only [pathExists, isDir, h]
  rfl

/-- Witness for `tools_convert_faults_to_strings`: a concrete fault is
converted by `read_file`, and a concrete timeout in a working directory
that exists is converted by `execute_command_with_cwd`. -/
theorem tools_convert_faults_to_strings_witness :
    read_file emptyFS "a.txt" (some "boom") = "Error reading file: " ++ "boom" ∧
    execute_command_with_cwd (fun q => if q = "/tmp" then some (Entry.dir []) else none)
      "sleep 60" "/tmp" RunOutcome.timedOut none =
      "Command timed out after 30 seconds: " ++ "sleep 60" :=
  ⟨tools_convert_faults_to_strings.1 emptyFS "a.txt" "boom",
   tools_convert_faults_to_strings.2.2.2.2.2.2.2.2.2.2.2.2.2.2.2.2.2.2.2.2.2.2.2.2.2.1
     (fun q => if q = "/tmp" then some (Entry.dir []) else none) "sleep 60" "/tmp" []
     (by decide)⟩

/-- C9: the shell tools run their subprocess under fixed timeouts — 30
seconds for `execute_command` and `execute_command_with_cwd`, 10
seconds for `execute_interactive_command`.  An expired timeout is
returned as a descriptive string naming the timeout and the command
(never raised), and in `execute_interactive_command` the handler kills
the process (`process.kill()`, recorded as the `true` flag); for the
`subprocess.run`-based tools the modelled `timedOut` outcome only
arises after the library has killed the child (the documented
`subprocess.run` contract, see `RunOutcome`). -/
theorem subprocess_fixed_timeouts (cmd : String) :
    executeCommandTimeoutSeconds = 30 ∧
    executeCommandWithCwdTimeoutSeconds = 30 ∧
    executeInteractiveTimeoutSeconds = 10 ∧
    execute_command cmd RunOutcome.timedOut none =
      "Command timed out after 30 seconds: " ++ cmd ∧
    (∀ (fs : FS) (wd : String) (items : List String),
      fs wd = some (Entry.dir items) →
      execute_command_with_cwd fs cmd wd RunOutcome.timedOut none =
        "Command timed out after 30 seconds: " ++ cmd) ∧
    execute_interactive_command cmd RunOutcome.timedOut none =
      ("Interactive command timed out after 10 seconds: " ++ cmd, true) := by
  refine ⟨rfl, rfl, rfl, rfl, ?_, rfl⟩
  intro fs wd items h
  unfold execute_command_with_cwd
  simp only [pathExists, isDir, h]
  rfl

/-- Witness for `subprocess_fixed_timeouts` with a concrete command and
an existing working directory. -/
theorem subprocess_fixed_timeouts_witness :
    execute_command "sleep 99" RunOutcome.timedOut none =
      "Command timed out after 30 seconds: " ++ "sleep 99" ∧
    execute_command_with_cwd (fun q => if q = "/work" then some (Entry.dir []) else none)
      "sleep 99" "/work" RunOutcome.timedOut none =
      "Command timed out after 30 seconds: " ++ "sleep 99" ∧
    execute_interactive_command "sleep 99" RunOutcome.timedOut none =
      ("Interactive command timed out after 10 seconds: " ++ "sleep 99", true) :=
  ⟨(subprocess_fixed_timeouts "sleep 99").2.2.2.1,
   (subprocess_fixed_timeouts "sleep 99").2.2.2.2.1
     (fun q => if q = "/work" then some (Entry.dir []) else none) "/work" [] (by decide),
   (subprocess_fixed_timeouts "sleep 99").2.2.2.2.2⟩

/-- C7, counterexample: `read_file` has NO precondition check.  On a
missing path its body delegates straight to `open`, which raises, and
the blanket handler formats the OS message — the output is
`"Error reading file: [Errno 2] ..."`, not a `"does not exist"`
precondition message produced before delegating. -/
theorem read_file_relies_on_os_raise :
    readFileBody emptyFS "data.txt" none =
      Except.error "[Errno 2] No such file or directory: 'data.txt'" ∧
    read_file emptyFS "data.txt" none =
      "Error reading file: [Errno 2] No such file or directory: 'data.txt'" ∧
    pyInB "does not exist" (read_file emptyFS "data.txt" none) = false := by
  exact ⟨rfl, rfl, by decide⟩

/-- C7 (amended): `list_directory`, `delete_file_or_path`,
`copy_file_or_path`, `move_file_or_path`, `get_file_info`,
`search_files`, `execute_command_with_cwd` and the four markdown tools
check path existence (and directory-vs-file where relevant) explicitly
before delegating to the OS call, each returning its descriptive
string; `read_file` and `write_file` however perform NO precondition
check — they delegate directly and rely on the raised `OSError` being
converted by the blanket handler (`readFileBody` errors on a missing
path; `write_file` on a bare filename faults inside `os.makedirs`). -/
theorem path_preconditions_checked_except_read_write :
    (∀ (fs : FS) (d : String), fs d = none →
      list_directory fs d none = "Directory '" ++ d ++ "' does not exist") ∧
    (∀ (fs : FS) (d c : String), fs d = some (Entry.file c) →
      list_directory fs d none = "'" ++ d ++ "' is not a directory") ∧
    (∀ (fs : FS) (p : String), fs p = none →
      delete_file_or_path fs p none = ("Path '" ++ p ++ "' does not exist", fs)) ∧
    (∀ (fs : FS) (src dst : String), fs src = none →
      copy_file_or_path fs src dst none = ("Source path '" ++ src ++ "' does not exist", fs)) ∧
    (∀ (fs : FS) (src dst : String), fs src = none →
      move_file_or_path fs src dst none = ("Source path '" ++ src ++ "' does not exist", fs)) ∧
    (∀ (fs : FS) (p : String) (st : StatData), fs p = none →
      get_file_info fs p st none = "Path '" ++ p ++ "' does not exist") ∧
    (∀ (fs : FS) (d pat : String) (g : List String), fs d = none →
      search_files fs d pat g none = "Directory '" ++ d ++ "' does not exist") ∧
    (∀ (fs : FS) (d pat c : String) (g : List String), fs d = some (Entry.file c) →
      search_files fs d pat g none = "'" ++ d ++ "' is not a directory") ∧
    (∀ (fs : FS) (cmd wd : String) (r : RunOutcome), fs wd = none →
      execute_command_with_cwd fs cmd wd r none =
        "Working directory '" ++ wd ++ "' does not exist") ∧
    (∀ (fs : FS) (cmd wd c : String) (r : RunOutcome), fs wd = some (Entry.file c) →
      execute_command_with_cwd fs cmd wd r none = "'" ++ wd ++ "' is not a directory") ∧
    (∀ (fs : FS) (p : String) (s : Int) (e : Option Int), fs p = none →
      read_markdown_lines fs p s e none = "Error: File '" ++ p ++ "' does not exist") ∧
    (∀ (fs : FS) (p : String) (pg : Option Int) (lpp : Int), fs p = none →
      read_markdown_pages fs p pg lpp none = "Error: File '" ++ p ++ "' does not exist") ∧
    (∀ (fs : FS) (p : String) (sn : Option String), fs p = none →
      read_markdown_sections fs p sn none = "Error: File '" ++ p ++ "' does not exist") ∧
    (∀ (fs : FS) (p t : String) (cx : Int), fs p = none →
      search_markdown_content fs p t cx none = "Error: File '" ++ p ++ "' does not exist") ∧
    (∀ (fs : FS) (p : String), fs p = none →
      readFileBody fs p none =
        Except.error ("[Errno 2] No such file or directory: '" ++ p ++ "'")) ∧
    (∀ (fs : FS) (p c : String), pyDirname p = "" →
      write_file fs p c none =
        ("Error writing file: [Errno 2] No such file or directory: ''", fs)) := by
  refine ⟨?_, ?_, ?_, ?_, ?_, ?_, ?_, ?_, ?_, ?_, ?_, ?_, ?_, ?_, ?_, ?_⟩
  · intro fs d h
    unfold list_directory
    simp [pathExists, h]
  · intro fs d c h
    unfold list_directory
    simp [pathExists, isDir, h]
  · intro fs p h
    unfold delete_file_or_path
    simp [pathExists, h]
  · intro fs src dst h
    unfold copy_file_or_path
    simp [pathExists, h]
  · intro fs src dst h
    unfold move_file_or_path
    simp [pathExists, h]
  · intro fs p st h
    unfold get_file_info
    simp [pathExists, h]
  · intro fs d pat g h
    unfold search_files
    simp [pathExists, h]
  · intro fs d pat c g h
    unfold search_files
    simp [pathExists, isDir, h]
  · intro fs cmd wd r h
    unfold execute_command_with_cwd
    simp [pathExists, h]
  · intro fs cmd wd c r h
    unfold execute_command_with_cwd
    simp [pathExists, isDir, h]
  · intro fs p s e h
    unfold read_markdown_lines
    rw [h]
  · intro fs p pg lpp h
    unfold read_markdown_pages
    rw [h]
  · intro fs p sn h
    unfold read_markdown_sections
    rw [h]
  · intro fs p t cx h
    unfold search_markdown_content
    rw [h]
  · intro fs p h
    unfold readFileBody
    rw [h]
  · intro fs p c h
    unfold write_file pyMakedirs
    rw [h]
    simp

/-- Witness for `path_preconditions_checked_except_read_write` on the
empty filesystem and a one-file filesystem. -/
theorem path_preconditions_witness :
    list_directory emptyFS "d" none = "Directory '" ++ "d" ++ "' does not exist" ∧
    list_directory (fun q => if q = "f.txt" then some (Entry.file "x") else none)
      "f.txt" none = "'" ++ "f.txt" ++ "' is not a directory" ∧
    delete_file_or_path emptyFS "p" none =
      ("Path '" ++ "p" ++ "' does not exist", emptyFS) ∧
    execute_command_with_cwd emptyFS "ls" "w" (RunOutcome.completed "" "" 0) none =
      "Working directory '" ++ "w" ++ "' does not exist" ∧
    read_markdown_lines emptyFS "m.md" 1 none none =
      "Error: File '" ++ "m.md" ++ "' does not exist" ∧
    readFileBody emptyFS "p.txt" none =
      Except.error ("[Errno 2] No such file or directory: '" ++ "p.txt" ++ "'") ∧
    write_file emptyFS "bare.txt" "c" none =
      ("Error writing file: [Errno 2] No such file or directory: ''", emptyFS) :=
  ⟨path_preconditions_checked_except_read_write.1 emptyFS "d" rfl,
   path_preconditions_checked_except_read_write.2.1
     (fun q => if q = "f.txt" then some (Entry.file "x") else none) "f.txt" "x" (by decide),
   path_preconditions_checked_except_read_write.2.2.1 emptyFS "p" rfl,
   path_preconditions_checked_except_read_write.2.2.2.2.2.2.2.2.1 emptyFS "ls" "w"
     (RunOutcome.completed "" "" 0) rfl,
   path_preconditions_checked_except_read_write.2.2.2.2.2.2.2.2.2.2.1 emptyFS "m.md" 1 none rfl,
   path_preconditions_checked_except_read_write.2.2.2.2.2.2.2.2.2.2.2.2.2.2.1 emptyFS
     "p.txt" rfl,
   path_preconditions_checked_except_read_write.2.2.2.2.2.2.2.2.2.2.2.2.2.2.2 emptyFS
     "bare.txt" "c" (by decide)⟩

/-- Universal-newline translation is the identity on carriage-return
free text. -/
theorem uNewAux_eq_self (l : List Char) (h : '\r' ∉ l) : uNewAux l = l := by
  induction l using uNewAux.induct with
  | case1 => rfl
  | case2 r => simp at h
  | case3 r hne ih => simp at h
  | case4 c r hne hcr ihr =>
    rw [uNewAux]
    · rw [ihr (fun hx => h (List.mem_cons_of_mem c hx))]
    · exact hne
    · exact hcr

/-- `open(...).read()` returns CR-free stored content unchanged. -/
theorem uNewlines_eq_self (c : String) (h : '\r' ∉ c.data) : uNewlines c = c := by
  unfold uNewlines
  rw [uNewAux_eq_self c.data h]

/-- `read_file` on an existing CR-free file returns its content. -/
theorem read_file_no_cr (fs : FS) (p c : String)
    (hf : fs p = some (Entry.file c)) (hCR : '\r' ∉ c.data) :
    read_file fs p none = c := by
  unfold read_file readFileBody
  rw [hf]
  exact uNewlines_eq_self c hCR

/-- C8 (amended): for every existing file whose content contains no
carriage return, reading it with `read_file` and writing the result
back with `write_file` leaves the file's content unchanged (whether the
write succeeds or faults, e.g. on a bare filename, the content at the
path is still the original). -/
theorem read_write_roundtrip_id (fs : FS) (p c : String)
    (hf : fs p = some (Entry.file c)) (hCR : '\r' ∉ c.data) :
    (write_file fs p (read_file fs p none) none).2 p = some (Entry.file c) := by
  rw [read_file_no_cr fs p c hf hCR]
  unfold write_file
  by_cases hd : pyDirname p = ""
  · unfold pyMakedirs
    rw [if_pos hd]
    exact hf
  · unfold pyMakedirs
    rw [if_neg hd]
    rcases hfd : fs (pyDirname p) with _ | entry
    · have hne : p ≠ pyDirname p := fun hx => by rw [← hx, hf] at hfd; exact Option.noConfusion hfd
      simp only []
      rw [show (if p = pyDirname p then some (Entry.dir []) else fs p) = fs p from if_neg hne]
      rw [hf]
      simp
    · cases entry with
      | file fc =>
        simp only []
        exact hf
      | dir items =>
        simp only []
        rw [hf]
        simp

/-- A filesystem with one CRLF file, for the round-trip counterexample. -/
def fsDocs : FS := fun q =>
  if q = "docs/a.md" then some (Entry.file "x\r\ny")
  else if q = "docs" then some (Entry.dir ["a.md"]) else none

/-- C8, counterexample: text-mode reading translates `\r\n` to `\n`
(universal newlines), so on a file stored as `"x\r\ny"` the
read-then-write-back round trip rewrites the file to `"x\ny"` — the
content is NOT unchanged. -/
theorem read_write_roundtrip_changes_crlf :
    read_file fsDocs "docs/a.md" none = "x\ny" ∧
    (write_file fsDocs "docs/a.md" (read_file fsDocs "docs/a.md" none) none).2 "docs/a.md"
      = some (Entry.file "x\ny") ∧
    (("x\ny" : String) == "x\r\ny") = false := by
  exact ⟨rfl, rfl, by decide⟩

/-- A filesystem with one CR-free file, for the round-trip witness. -/
def fsDocs2 : FS := fun q =>
  if q = "docs/b.md" then some (Entry.file "hello\n")
  else if q = "docs" then some (Entry.dir ["b.md"]) else none

/-- Witness for `read_write_roundtrip_id` on a concrete CR-free file. -/
theorem read_write_roundtrip_id_witness :
    (write_file fsDocs2 "docs/b.md" (read_file fsDocs2 "docs/b.md" none) none).2 "docs/b.md"
      = some (Entry.file "hello\n") :=
  read_write_roundtrip_id fsDocs2 "docs/b.md" "hello\n" (by decide) (by decide)
